import Mathlib

/-
  Verification of the luxmeters-py protocol engine: a shallow embedding of
  the UT382 raw-stream decoder (src/luxmeters/ut382/ut382.py) and of the
  Konica Minolta CL-200A driver (src/luxmeters/konica/CL200A.py and
  src/konica/ChromaMeterKonica.py), with theorems settling the spec claims.
  Python floats are modelled as exact rationals; Python exceptions as
  Option/Except-style results.
-/

namespace Luxmeters

/- ## UT382 decoder: decode_raw (ut382.py lines 69-91) -/

/-- The nibble-pairing loop of decode_raw: Python iterates i = 1, 3, 5, ...
and appends (bs[i-1] & 0x0F) | ((bs[i] & 0x0F) * 16), so the list is
consumed two bytes at a time and a trailing unpaired byte is dropped. -/
def nibblePairs : List Nat → List Nat
  | b0 :: b1 :: rest => ((b0 &&& 0x0F) ||| ((b1 &&& 0x0F) * 16)) :: nibblePairs rest
  | _ => []

/-- Embedding of decode_raw (src/luxmeters/ut382/ut382.py lines 69-91): a
"weird" message is collected for a wrong message length, for each byte among
bytes 0-29 whose high nibble is not 0x3, and for bad terminator bytes at
indices 30 and 31 (checked only when the list is long enough, as in the
Python guard `len(bs) > 30 and bs[30] != 0x0D`); the payload pairs the low
nibbles of the first 30 bytes; malformed is true exactly when some message
was collected. -/
def decode_raw (bs : List Nat) : List Nat × Bool :=
  let weird : List String :=
    (if bs.length ≠ 33 then ["wrong message length"] else [])
    ++ ((bs.take 30).filter (fun b => b &&& 0xF0 != 0x30)).map (fun _ => "bad byte prefix")
    ++ (if 30 < bs.length ∧ bs.getD 30 0 ≠ 0x0D then ["bad byte 30"] else [])
    ++ (if 31 < bs.length ∧ bs.getD 31 0 ≠ 0x0A then ["bad byte 31"] else [])
  (nibblePairs (bs.take 30), !weird.isEmpty)

/- ## UT382 decoder: decode_lux (ut382.py lines 101-121) -/

/-- One decoded LCD field value for a big digit of the UT382 display:
either a numeric digit or a letter symbol (such as the letter L shown on a
blank/out-of-range display). -/
inductive LCDVal where
  | num (n : Nat)
  | sym (c : Char)
deriving DecidableEq, Repr

/-- The fields of the decoded display summary that decode_lux inspects
(src/luxmeters/ut382/ut382.py lines 101-121). Flag fields are truthiness
tests in Python and are modelled as Bool; the unit field is passed through
unchanged. -/
structure Summary where
  unit : Option String
  big_1000 : Option LCDVal
  big_100 : Option LCDVal
  big_10 : Option LCDVal
  big_1 : Option LCDVal
  big_10ths : Bool
  big_100ths : Bool
  big_1000ths : Bool
  x10 : Bool
deriving DecidableEq, Repr

/-- A Python number as returned by decode_lux: `int(lux)` truncation yields
an int, otherwise the value stays a float (modelled exactly in ℚ). -/
inductive PyNum where
  | int (n : Int)
  | float (q : Rat)
deriving DecidableEq, Repr

/-- Python `int()` on a number: truncation toward zero. -/
def pyInt (q : Rat) : Int := if q < 0 then -((-q).floor) else q.floor

/-- The digit-accumulation loop of decode_lux: iterate over the reversed
digit list with index i, skip None, add d * 10 ^ i for a numeric digit d; a
letter digit would be a Python TypeError, modelled as none. -/
def accumLux : List (Option LCDVal) → Nat → Rat → Option Rat
  | [], _, acc => some acc
  | none :: rest, i, acc => accumLux rest (i + 1) acc
  | some (LCDVal.num n) :: rest, i, acc => accumLux rest (i + 1) (acc + n * 10 ^ i)
  | some (LCDVal.sym _) :: _, _, _ => none

/-- Embedding of decode_lux (src/luxmeters/ut382/ut382.py lines 101-121).
The outer Option models a Python TypeError (letter digit outside the blank
pattern); otherwise the pair (lux, unit) is returned as in the source, with
lux = none for the blank-display pattern [None, 0, 'L', None]. -/
def decode_lux (s : Summary) : Option (Option PyNum × Option String) :=
  let digits := [s.big_1000, s.big_100, s.big_10, s.big_1]
  if digits = [none, some (LCDVal.num 0), some (LCDVal.sym 'L'), none] then
    some (none, s.unit)
  else
    match accumLux digits.reverse 0 0 with
    | none => none
    | some lux0 =>
      let lux1 := if s.big_10ths then lux0 * (1 / 10) else lux0
      let lux2 := if s.big_100ths then lux1 * (1 / 100) else lux1
      let lux3 := if s.big_1000ths then lux2 * (1 / 1000) else lux2
      let lux4 := if s.x10 then lux3 * 10 else lux3
      let luxF := if !(s.big_10ths || s.big_100ths || s.big_1000ths)
        then PyNum.int (pyInt lux4) else PyNum.float lux4
      some (some luxF, s.unit)

/- ## UT382 decoder: live_average (ut382.py lines 208-219) -/

/-- The body of live_average over the stream of lux readings produced by
live_monitor (src/luxmeters/ut382/ut382.py lines 208-219): None readings
are skipped without counting, a non-None reading is appended to history,
and once history holds `samples` readings their average is emitted and the
history is reset; a partial window at stream end produces nothing. -/
def liveAverageLoop (samples : Nat) : List (Option Rat) → List Rat → List Rat
  | [], _ => []
  | none :: rest, history => liveAverageLoop samples rest history
  | some l :: rest, history =>
    let h := history ++ [l]
    if h.length < samples then liveAverageLoop samples rest h
    else (h.sum / (h.length : Rat)) :: liveAverageLoop samples rest []

/-- live_average with `samples = duration * 8.0` and an empty history. -/
def live_average (duration : Nat) (stream : List (Option Rat)) : List Rat :=
  liveAverageLoop (duration * 8) stream []

/-- The list of complete length-n chunks of l, in order; a trailing partial
chunk is dropped. Used to state what live_average emits. -/
def fullChunks (n : Nat) (l : List α) : List (List α) :=
  if _h : 0 < n ∧ n ≤ l.length then
    l.take n :: fullChunks n (l.drop n)
  else []
termination_by l.length
decreasing_by
  simp only [List.length_drop]
  omega

/- ## CL200A driver: __ext_mode (CL200A.py lines 77-103) -/

/-- The Python slice `s[6:7]`: the one-character string at offset 6, empty
when the response is shorter. -/
def slice6 (s : List Char) : List Char := (s.drop 6).take 1

/-- Serial actions observable during the __ext_mode handshake loop. -/
inductive ExtEvent where
  | sendCmd40
  | readLine
  | runHoldMode
deriving DecidableEq, Repr

/-- How __ext_mode terminates: the method returns normally (break or loop
end, so construction proceeds) or raises ConnectionError with a message. -/
inductive ExtOutcome where
  | ready
  | fatal (msg : String)
deriving DecidableEq, Repr

/-- Embedding of the `for i in range(2)` loop of __ext_mode
(src/luxmeters/konica/CL200A.py lines 88-103; the identical loop is
src/konica/ChromaMeterKonica.py lines 93-108). `stream k` is the k-th
readline result; `fuel` is the number of loop iterations left. Each
iteration writes command_40, reads a line, and inspects offset 6: '4' runs
__hold_mode and continues; '1', '2' or '3' raises ConnectionError; anything
else breaks out of the loop. -/
def extModeLoop (stream : Nat → List Char) : Nat → Nat → List ExtEvent × ExtOutcome
  | 0, _ => ([], ExtOutcome.ready)
  | fuel + 1, k =>
    let r := stream k
    if slice6 r = ['4'] then
      let next := extModeLoop stream fuel (k + 1)
      (ExtEvent.sendCmd40 :: ExtEvent.readLine :: ExtEvent.runHoldMode :: next.1, next.2)
    else if slice6 r = ['1'] ∨ slice6 r = ['2'] ∨ slice6 r = ['3'] then
      ([ExtEvent.sendCmd40, ExtEvent.readLine],
        ExtOutcome.fatal "Switch off the CL-200A and then switch it back on")
    else
      ([ExtEvent.sendCmd40, ExtEvent.readLine], ExtOutcome.ready)

/-- __ext_mode: the loop with two iterations, reading from position 0. -/
def ext_mode (stream : Nat → List Char) : List ExtEvent × ExtOutcome :=
  extModeLoop stream 2 0

/- ## CL200A driver: __connection (CL200A.py lines 37-64) -/

/-- The module-level compile-time flag of src/luxmeters/konica/CL200A.py
line 8 (and src/konica/ChromaMeterKonica.py line 12): SKIP_CHECK_LIST. -/
def SKIP_CHECK_LIST : Bool := true

/-- How __connection terminates: the method returns (construction
proceeds) or raises SerialException with a message. -/
inductive ConnOutcome where
  | proceed
  | raiseSerial (msg : String)
deriving DecidableEq, Repr

/-- Embedding of the `for i in range(2)` loop of __connection
(src/luxmeters/konica/CL200A.py lines 49-64), parameterised by the
compile-time skip flag and by `check k`, which says whether the expected
response substring occurs in the k-th readline result. Each iteration
writes the command_54 frame and reads one line; with the skip flag set the
loop breaks immediately; otherwise a passing check breaks, a failing check
on iteration 0 continues, and a failing check on iteration 1 raises.
Returns the number of write-and-read attempts performed and the outcome. -/
def connectionLoop (skip : Bool) (check : Nat → Bool) : Nat × ConnOutcome :=
  if skip then (1, ConnOutcome.proceed)
  else if check 0 then (1, ConnOutcome.proceed)
  else
    if skip then (2, ConnOutcome.proceed)
    else if check 1 then (2, ConnOutcome.proceed)
    else (2, ConnOutcome.raiseSerial
      "Konica Minolta CL-200A has an error. Please verify USB cable.")

/-- __connection as compiled: the loop with the source's flag value. -/
def connection (check : Nat → Bool) : Nat × ConnOutcome :=
  connectionLoop SKIP_CHECK_LIST check

/- ## ChromaMeterKonica: perform_measurement and is_alive
   (ChromaMeterKonica.py lines 110-141) -/

/-- What one `self.ser.readline()` call does during a measurement: raise
SerialException, return an empty line (timeout), or return a line. -/
inductive SerialRead where
  | raises
  | empty
  | line (s : List Char)
deriving DecidableEq, Repr

/-- Driver state of ChromaMeterKonica: the is_alive flag (set to true in
__init__ and written nowhere else except perform_measurement). -/
structure KonicaState where
  is_alive : Bool
deriving DecidableEq, Repr

/-- Embedding of ChromaMeterKonica.perform_measurement
(src/konica/ChromaMeterKonica.py lines 110-141): when is_alive is false the
method returns immediately with no data and no serial traffic; otherwise it
writes the trigger and read commands and reads a line; a SerialException
while reading sets is_alive to false and returns no data; an empty line
returns no data; a line is validated by check_measurement (which receives
only the result string and cannot touch is_alive) and returned. The third
component records whether the serial port was touched. -/
def perform_measurement (st : KonicaState) (read : SerialRead) :
    KonicaState × Option (List Char) × Bool :=
  if st.is_alive = false then (st, none, false)
  else
    match read with
    | SerialRead.raises => (⟨false⟩, none, true)
    | SerialRead.empty => (st, none, true)
    | SerialRead.line s => (st, some s, true)

/-- Repeated driver operations: every query method (get_lux, get_xyz,
get_cct, get_delta_uv) funnels its serial work through perform_measurement
and is otherwise pure, so the is_alive evolution of any operation sequence
is the fold of perform_measurement state updates. -/
def runMeasurements (st : KonicaState) : List SerialRead → KonicaState
  | [] => st
  | r :: rs => runMeasurements (perform_measurement st r).1 rs

/- ## ChromaMeterKonica: get_cct (ChromaMeterKonica.py lines 183-212) -/

/-- Embedding of ChromaMeterKonica.get_cct
(src/konica/ChromaMeterKonica.py lines 183-212) on tristimulus values
x, y, z over ℚ. A Python ZeroDivisionError (zero denominator) is modelled
as none. -/
def get_cct (x y z : Rat) : Option Rat :=
  if x = 0 ∨ y = 0 ∨ z = 0 then some 0
  else if x + y + z = 0 then none
  else
    let small_x := x / (x + y + z)
    let small_y := y / (x + y + z)
    if (1858 / 10000 : Rat) - small_y = 0 then none
    else
      let n := (small_x - 3320 / 10000) / (1858 / 10000 - small_y)
      some (437 * n ^ 3 + 3601 * n ^ 2 + 6861 * n + 5517)

/- ## CL200A: calc_lux (modelled from the spec) -/

/-- Value of an ASCII digit character. -/
def digitVal (c : Char) : Nat := c.toNat - 48

/-- Parse a list of ASCII digit characters as a decimal natural number, as
Python float() does on a string of digits. -/
def parseDigits (cs : List Char) : Nat :=
  cs.foldl (fun acc c => acc * 10 + digitVal c) 0

/-- Python `round(q, 3)` on an exact value, modelled in ℚ: round to the
nearest thousandth. -/
def round3 (q : Rat) : Rat := (round (q * 1000) : Int) / 1000

/-- Modelled from the spec: calc_lux lives in
luxmeters/konica/CL200A_utils.py, which is not among the sources here; §4.3
of the spec gives the derivation used by CL200A.get_lux on the measurement
response string: sign +1 if the character at offset 9 is '+' and -1
otherwise, mantissa the 4-digit number at offsets 10-13, exponent the digit
at offset 14 minus 4, and lux = round(sign * mantissa * 10 ** exponent, 3). -/
def calc_lux (s : List Char) : Rat :=
  let sign : Rat := if s.getD 9 ' ' = '+' then 1 else -1
  let mantissa : Rat := (parseDigits ((s.drop 10).take 4) : Nat)
  let e : Int := (digitVal (s.getD 14 ' ') : Int) - 4
  round3 (sign * mantissa * (10 : Rat) ^ e)

/-- The McCamy n parameter as computed by get_cct. -/
def mccamyN (x y z : Rat) : Rat :=
  (x / (x + y + z) - 3320 / 10000) / (1858 / 10000 - y / (x + y + z))

/-- C7: get_cct returns exactly 0 whenever any of x, y, z is exactly 0, and
otherwise (whenever the divisions Python performs are defined) returns the
McCamy polynomial 437 n^3 + 3601 n^2 + 6861 n + 5517 with
n = (x/(x+y+z) - 0.3320) / (0.1858 - y/(x+y+z)); over ℚ the value is
exact, hence reproducible within any floating-point tolerance. -/
theorem get_cct_spec (x y z : Rat) :
    ((x = 0 ∨ y = 0 ∨ z = 0) → get_cct x y z = some 0) ∧
    (x ≠ 0 → y ≠ 0 → z ≠ 0 → x + y + z ≠ 0 →
      (1858 / 10000 : Rat) - y / (x + y + z) ≠ 0 →
      get_cct x y z = some (437 * mccamyN x y z ^ 3 + 3601 * mccamyN x y z ^ 2
        + 6861 * mccamyN x y z + 5517)) := by
  constructor
  · intro h
    simp [get_cct, h]
  · intro hx hy hz hs hd
    simp [get_cct, hx, hy, hz, hs, hd, mccamyN]

/-- Concrete instance of get_cct_spec at the spec scenario
x = 0.3, y = 0.3, z = 0.4. -/
theorem get_cct_spec_witness :
    get_cct (3 / 10) (3 / 10) (4 / 10)
      = some (437 * mccamyN (3 / 10) (3 / 10) (4 / 10) ^ 3
        + 3601 * mccamyN (3 / 10) (3 / 10) (4 / 10) ^ 2
        + 6861 * mccamyN (3 / 10) (3 / 10) (4 / 10) + 5517) :=
  (get_cct_spec (3 / 10) (3 / 10) (4 / 10)).2 (by norm_num) (by norm_num)
    (by norm_num) (by norm_num) (by norm_num)

/-- Helper: round3 on a value that is an exact multiple of one thousandth. -/
theorem round3_eq_of_mul_eq (q : Rat) (n : Int) (h : q * 1000 = (n : Rat)) :
    round3 q = (n : Rat) / 1000 := by
  rw [round3, h, round_intCast]

/-- C1: for every CL200A measurement response string, calc_lux (as used by
get_lux) equals sign * mantissa * 10 ^ exponent rounded to 3 decimals
with sign from the character at offset 9, mantissa the 4-digit number at
offsets 10-13 and exponent the digit at offset 14 minus 4; in particular a
response with offset 9 = '+', offsets 10-13 = "0523" and offset 14 = '6'
yields exactly 52300. -/
theorem calc_lux_spec (s : List Char) :
    calc_lux s = round3 ((if s.getD 9 ' ' = '+' then (1 : Rat) else -1)
        * (parseDigits ((s.drop 10).take 4) : Rat)
        * (10 : Rat) ^ ((digitVal (s.getD 14 ' ') : Int) - 4)) ∧
    (s.getD 9 ' ' = '+' → (s.drop 10).take 4 = ['0', '5', '2', '3'] →
      s.getD 14 ' ' = '6' → calc_lux s = 52300) := by
  refine ⟨rfl, ?_⟩
  intro h9 hm h14
  simp only [calc_lux, h9, hm, h14, if_pos]
  have hp : parseDigits ['0', '5', '2', '3'] = 523 := by decide
  have hd6 : digitVal '6' = 6 := by decide
  rw [hp, hd6, round3_eq_of_mul_eq _ 52300000 (by push_cast; norm_num)]
  norm_num

/-- Concrete instance of calc_lux_spec on a response string realising the
spec scenario. -/
theorem calc_lux_spec_witness :
    calc_lux [' ', ' ', ' ', ' ', ' ', ' ', ' ', ' ', ' ', '+', '0', '5', '2', '3', '6']
      = 52300 :=
  (calc_lux_spec _).2 (by decide) (by decide) (by decide)

/-- C8 counterexample: with the source's SKIP_CHECK_LIST flag, __connection
performs exactly one write-and-read attempt even when the response check
would always fail, refuting the claim that it attempts twice. -/
theorem connection_attempts_counterexample :
    (connection (fun _ => false)).1 = 1 ∧ ¬(connection (fun _ => false)).1 = 2 := by
  decide

/-- C8 amended: during the Disconnected-to-PCConnected transition the
driver sends the command_54 frame and reads one response line exactly once;
because the compile-time SKIP_CHECK_LIST flag is true the loop breaks after
the first attempt without checking the response, and construction proceeds
(it does not abort) regardless of the response. -/
theorem connection_single_attempt (check : Nat → Bool) :
    connection check = (1, ConnOutcome.proceed) := rfl

/-- C9: a SerialException observed while reading during a measurement sets
is_alive to false; once is_alive is false, every perform_measurement call
returns no data without touching the serial port and leaves the state
unchanged, and no sequence of driver operations ever makes is_alive true
again. -/
theorem konica_dead_state_sticky (st : KonicaState) (r : SerialRead)
    (rs : List SerialRead) (hdead : st.is_alive = false) :
    (perform_measurement ⟨true⟩ SerialRead.raises).1.is_alive = false ∧
    perform_measurement st r = (st, none, false) ∧
    (runMeasurements st rs).is_alive = false := by
  refine ⟨rfl, by simp [perform_measurement, hdead], ?_⟩
  induction rs generalizing st with
  | nil => simpa [runMeasurements] using hdead
  | cons r' rs' ih =>
    have hstep : (perform_measurement st r').1 = st := by
      simp [perform_measurement, hdead]
    simpa [runMeasurements, hstep] using ih st hdead

/-- Concrete instance of konica_dead_state_sticky on a dead driver. -/
theorem konica_dead_state_sticky_witness :
    perform_measurement ⟨false⟩ SerialRead.empty = (⟨false⟩, none, false) ∧
    (runMeasurements ⟨false⟩ [SerialRead.raises, SerialRead.line ['x']]).is_alive = false :=
  ⟨(konica_dead_state_sticky ⟨false⟩ SerialRead.empty
      [SerialRead.raises, SerialRead.line ['x']] rfl).2.1,
   (konica_dead_state_sticky ⟨false⟩ SerialRead.empty
      [SerialRead.raises, SerialRead.line ['x']] rfl).2.2⟩

/-- C4: for every response line read during the Held-to-ExtMode handshake:
offset 6 = '4' re-runs hold mode and retries EXT mode, bounded to 2
attempts total; offset 6 in {'1','2','3'} raises ConnectionError with the
power-cycle message and makes no further attempt; any other character
completes the handshake successfully. -/
theorem ext_mode_handshake_spec (stream : Nat → List Char) :
    ((ext_mode stream).1.count ExtEvent.sendCmd40 ≤ 2) ∧
    ((slice6 (stream 0) = ['1'] ∨ slice6 (stream 0) = ['2'] ∨ slice6 (stream 0) = ['3']) →
      ext_mode stream = ([ExtEvent.sendCmd40, ExtEvent.readLine],
        ExtOutcome.fatal "Switch off the CL-200A and then switch it back on")) ∧
    (slice6 (stream 0) ≠ ['4'] →
      ¬(slice6 (stream 0) = ['1'] ∨ slice6 (stream 0) = ['2'] ∨ slice6 (stream 0) = ['3']) →
      ext_mode stream = ([ExtEvent.sendCmd40, ExtEvent.readLine], ExtOutcome.ready)) ∧
    (slice6 (stream 0) = ['4'] →
      ((slice6 (stream 1) = ['1'] ∨ slice6 (stream 1) = ['2'] ∨ slice6 (stream 1) = ['3']) →
        ext_mode stream = ([ExtEvent.sendCmd40, ExtEvent.readLine, ExtEvent.runHoldMode,
          ExtEvent.sendCmd40, ExtEvent.readLine],
          ExtOutcome.fatal "Switch off the CL-200A and then switch it back on")) ∧
      (slice6 (stream 1) ≠ ['4'] →
        ¬(slice6 (stream 1) = ['1'] ∨ slice6 (stream 1) = ['2'] ∨ slice6 (stream 1) = ['3']) →
        ext_mode stream = ([ExtEvent.sendCmd40, ExtEvent.readLine, ExtEvent.runHoldMode,
          ExtEvent.sendCmd40, ExtEvent.readLine], ExtOutcome.ready)) ∧
      (slice6 (stream 1) = ['4'] →
        ext_mode stream = ([ExtEvent.sendCmd40, ExtEvent.readLine, ExtEvent.runHoldMode,
          ExtEvent.sendCmd40, ExtEvent.readLine, ExtEvent.runHoldMode], ExtOutcome.ready))) := by
  by_cases h0 : slice6 (stream 0) = ['4'] <;>
    by_cases h1 : slice6 (stream 1) = ['4'] <;>
    by_cases f0 : slice6 (stream 0) = ['1'] ∨ slice6 (stream 0) = ['2'] ∨ slice6 (stream 0) = ['3'] <;>
    by_cases f1 : slice6 (stream 1) = ['1'] ∨ slice6 (stream 1) = ['2'] ∨ slice6 (stream 1) = ['3'] <;>
    simp_all [ext_mode, extModeLoop, List.count_cons]

/-- Concrete instance of ext_mode_handshake_spec: a first response with '4'
at offset 6 followed by a clean response. -/
theorem ext_mode_handshake_spec_witness :
    ext_mode (fun k => if k = 0 then [' ', ' ', ' ', ' ', ' ', ' ', '4']
        else [' ', ' ', ' ', ' ', ' ', ' ', '0'])
      = ([ExtEvent.sendCmd40, ExtEvent.readLine, ExtEvent.runHoldMode,
          ExtEvent.sendCmd40, ExtEvent.readLine], ExtOutcome.ready) :=
  (((ext_mode_handshake_spec _).2.2.2 (by decide)).2.1 (by decide) (by decide))

/-- C10: if both bounded EXT-mode attempts read a response with '4' at
offset 6, the handshake method returns normally (no raised error), makes
exactly 2 attempts, and construction proceeds although EXT mode was never
confirmed. -/
theorem ext_mode_double_four (stream : Nat → List Char)
    (h0 : slice6 (stream 0) = ['4']) (h1 : slice6 (stream 1) = ['4']) :
    (ext_mode stream).2 = ExtOutcome.ready ∧
    (ext_mode stream).1.count ExtEvent.sendCmd40 = 2 := by
  simp [ext_mode, extModeLoop, h0, h1, List.count_cons]

/-- Concrete instance of ext_mode_double_four: every response has '4' at
offset 6. -/
theorem ext_mode_double_four_witness :
    (ext_mode (fun _ => [' ', ' ', ' ', ' ', ' ', ' ', '4'])).2 = ExtOutcome.ready ∧
    (ext_mode (fun _ => [' ', ' ', ' ', ' ', ' ', ' ', '4'])).1.count ExtEvent.sendCmd40 = 2 :=
  ext_mode_double_four _ (by decide) (by decide)

/-- Helper: a stream with no None entry keeps its length under filterMap id. -/
theorem filterMap_id_length_of_no_none (stream : List (Option Rat))
    (h : ∀ x ∈ stream, x ≠ none) :
    (stream.filterMap id).length = stream.length := by
  induction stream with
  | nil => rfl
  | cons x rest ih =>
    match x, h x (by simp) with
    | some v, _ =>
      have hfm : List.filterMap id (some v :: rest) = v :: List.filterMap id rest := rfl
      simp only [hfm, List.length_cons]
      rw [ih fun y hy => h y (by simp [hy])]

/-- Helper: the live_average loop, started with a history shorter than the
window, emits exactly the averages of the complete windows of the non-None
readings (with the pending history prepended). -/
theorem liveAverageLoop_eq_fullChunks (samples : Nat) (hs : 0 < samples)
    (stream : List (Option Rat)) :
    ∀ history : List Rat, history.length < samples →
    liveAverageLoop samples stream history
      = (fullChunks samples (history ++ stream.filterMap id)).map
          (fun c => c.sum / (c.length : Rat)) := by
  induction stream with
  | nil =>
    intro history hlt
    rw [liveAverageLoop, List.filterMap_nil, List.append_nil, fullChunks,
      dif_neg (by omega), List.map_nil]
  | cons x rest ih =>
    intro history hlt
    match x with
    | none =>
      have hfm : List.filterMap id (none :: rest) = List.filterMap id rest := rfl
      rw [liveAverageLoop, hfm, ih history hlt]
    | some l =>
      have hfm : List.filterMap id (some l :: rest) = l :: List.filterMap id rest := rfl
      rw [liveAverageLoop, hfm]
      by_cases hfull : (history ++ [l]).length < samples
      · rw [if_pos hfull, ih (history ++ [l]) hfull, List.append_assoc,
          List.singleton_append]
      · have hlen : (history ++ [l]).length = samples := by
          simp only [List.length_append, List.length_cons, List.length_nil] at hfull ⊢
          omega
        have hrhs : history ++ l :: rest.filterMap id
            = (history ++ [l]) ++ rest.filterMap id := by
          rw [List.append_assoc, List.singleton_append]
        have hstep : fullChunks samples ((history ++ [l]) ++ rest.filterMap id)
            = (history ++ [l]) :: fullChunks samples (rest.filterMap id) := by
          rw [fullChunks, dif_pos ⟨hs, by rw [List.length_append, hlen]; omega⟩,
            List.take_left' hlen, List.drop_left' hlen]
        rw [if_neg hfull, ih [] (by simp only [List.length_nil]; omega),
          List.nil_append, hrhs, hstep, List.map_cons]

/-- C5: live_average accumulates consecutive non-None lux readings
(skipping None readings without counting them) and emits one averaged
reading per complete window of duration * 8 readings, resetting the window
after each emission; a trailing partial window produces nothing. In
particular, for duration 2 a stream of 16 non-None readings yields exactly
one averaged sample equal to their arithmetic mean. -/
theorem live_average_spec (d : Nat) (hd : 0 < d) (stream : List (Option Rat)) :
    live_average d stream
      = (fullChunks (d * 8) (stream.filterMap id)).map
          (fun c => c.sum / (c.length : Rat)) ∧
    (d = 2 → stream.length = 16 → (∀ x ∈ stream, x ≠ none) →
      live_average d stream = [(stream.filterMap id).sum / 16]) := by
  have hmain := liveAverageLoop_eq_fullChunks (d * 8) (by omega) stream []
    (by simp only [List.length_nil]; omega)
  rw [List.nil_append] at hmain
  constructor
  · show liveAverageLoop (d * 8) stream [] = _
    exact hmain
  · intro hd2 hlen hns
    subst hd2
    have hflen : (stream.filterMap id).length = 16 := by
      rw [filterMap_id_length_of_no_none stream hns, hlen]
    show liveAverageLoop (2 * 8) stream [] = _
    rw [hmain, fullChunks, dif_pos ⟨by norm_num, by omega⟩,
      List.take_of_length_le (by omega), List.drop_eq_nil_of_le (by omega),
      fullChunks, dif_neg (by simp), List.map_cons, List.map_nil, hflen]
    norm_num

/-- Concrete instance of live_average_spec: duration 2 over sixteen
readings of value 1 yields the single average 1. -/
theorem live_average_spec_witness :
    live_average 2 (List.replicate 16 (some (1 : Rat)))
      = [((List.replicate 16 (some (1 : Rat))).filterMap id).sum / 16] :=
  (live_average_spec 2 (by norm_num) (List.replicate 16 (some (1 : Rat)))).2
    rfl (by decide) (by decide)

/-- Helper: the bad-prefix filter of decode_raw is empty on the first n
bytes when every one of them has high nibble 0x3. -/
theorem filter_badByte_eq_nil (l : List Nat) :
    ∀ n : Nat, (∀ i, i < n → l.getD i 0 &&& 0xF0 = 0x30) →
    (l.take n).filter (fun b => b &&& 0xF0 != 0x30) = [] := by
  induction l with
  | nil => intro n _; simp
  | cons b t ih =>
    intro n h
    match n with
    | 0 => simp
    | m + 1 =>
      have hb : b &&& 0xF0 = 0x30 := by simpa using h 0 (by omega)
      have ht := ih m (fun i hi => by simpa using h (i + 1) (by omega))
      simp [List.take_succ_cons, List.filter_cons, hb, ht]

/-- Helper: nibblePairs halves the length (a trailing unpaired byte is
dropped). -/
theorem nibblePairs_length : ∀ l : List Nat, (nibblePairs l).length = l.length / 2
  | [] => by simp [nibblePairs]
  | [_] => by simp [nibblePairs]
  | _ :: _ :: rest => by
    simp only [nibblePairs, List.length_cons, nibblePairs_length rest]
    omega

/-- Helper: entry k of nibblePairs combines the low nibbles of bytes 2k and
2k+1. -/
theorem nibblePairs_getD : ∀ (l : List Nat) (k : Nat), 2 * k + 1 < l.length →
    (nibblePairs l).getD k 0
      = (l.getD (2 * k) 0 &&& 0x0F) ||| ((l.getD (2 * k + 1) 0 &&& 0x0F) * 16)
  | [], k, h => by simp at h
  | [_], k, h => by simp at h
  | b0 :: b1 :: rest, 0, _ => by simp [nibblePairs]
  | b0 :: b1 :: rest, k + 1, h => by
    have hrec := nibblePairs_getD rest k (by simp at h; omega)
    have e1 : 2 * (k + 1) = 2 * k + 1 + 1 := by ring
    have e2 : 2 * (k + 1) + 1 = 2 * k + 1 + 1 + 1 := by ring
    simp only [nibblePairs, List.getD_cons_succ, hrec, e1, e2]

/-- Helper: getD inside a take, below the cut. -/
theorem getD_take_eq (l : List Nat) (n i : Nat) (h : i < n) :
    (l.take n).getD i 0 = l.getD i 0 := by
  simp [List.getD_eq_getElem?_getD, List.getElem?_take_of_lt h]

/-- C2: on a 33-byte frame whose bytes 0-29 all have high nibble 0x3 and
whose terminator bytes 30 and 31 are 0x0D and 0x0A, decode_raw reports
malformed = false and returns the 15-byte payload whose k-th byte is
(b[2k] and 0x0F) or ((b[2k+1] and 0x0F) shifted left 4); byte 32 is never
inspected (replacing it changes nothing); and flipping the high nibble of
any one of bytes 0-29 to a non-0x3 value makes malformed = true. -/
theorem decode_raw_spec (bs : List Nat)
    (hlen : bs.length = 33)
    (hpre : ∀ i, i < 30 → bs.getD i 0 &&& 0xF0 = 0x30)
    (h30 : bs.getD 30 0 = 0x0D)
    (h31 : bs.getD 31 0 = 0x0A) :
    (decode_raw bs).2 = false ∧
    (decode_raw bs).1.length = 15 ∧
    (∀ k, k < 15 → (decode_raw bs).1.getD k 0
      = (bs.getD (2 * k) 0 &&& 0x0F) ||| ((bs.getD (2 * k + 1) 0 &&& 0x0F) <<< 4)) ∧
    (∀ v, decode_raw (bs.set 32 v) = decode_raw bs) ∧
    (∀ j, j < 30 → ∀ v, v &&& 0xF0 ≠ 0x30 → (decode_raw (bs.set j v)).2 = true) := by
  have hfil := filter_badByte_eq_nil bs 30 hpre
  have clen : ¬bs.length ≠ 33 := by omega
  refine ⟨?_, ?_, ?_, ?_, ?_⟩
  · simp only [decode_raw, clen, hfil]
    simp only [List.getD_eq_getElem?_getD] at h30 h31
    simp [h30, h31]
  · simp only [decode_raw]
    rw [nibblePairs_length, List.length_take, hlen]
    omega
  · intro k hk
    simp only [decode_raw]
    rw [nibblePairs_getD _ k (by simp [hlen]; omega),
      getD_take_eq _ _ _ (by omega), getD_take_eq _ _ _ (by omega),
      Nat.shiftLeft_eq]
  · intro v
    have ht : (bs.set 32 v).take 30 = bs.take 30 := by
      rw [List.set_take, List.set_eq_of_length_le (by simp [hlen])]
    have h30s : (bs.set 32 v).getD 30 0 = bs.getD 30 0 := by
      simp [List.getD_eq_getElem?_getD, List.getElem?_set_ne (by omega : (32 : Nat) ≠ 30)]
    have h31s : (bs.set 32 v).getD 31 0 = bs.getD 31 0 := by
      simp [List.getD_eq_getElem?_getD, List.getElem?_set_ne (by omega : (32 : Nat) ≠ 31)]
    simp [decode_raw, List.length_set, ht, h30s, h31s]
  · intro j hj v hv
    have hmem : v ∈ (bs.set j v).take 30 := by
      rw [List.set_take]
      exact List.mem_set _ j (by simp [hlen]; omega) v
    have hfilne : ((bs.set j v).take 30).filter (fun b => b &&& 0xF0 != 0x30) ≠ [] := by
      intro hnil
      rw [List.filter_eq_nil_iff] at hnil
      have := hnil v hmem
      simp only [bne_iff_ne, ne_eq, not_not] at this
      exact hv this
    simp [decode_raw, List.isEmpty_iff, List.append_eq_nil, List.map_eq_nil_iff, hfilne]

/-- Concrete instance of decode_raw_spec on the all-0x30 frame. -/
theorem decode_raw_spec_witness :
    (decode_raw (List.replicate 30 0x30 ++ [0x0D, 0x0A, 0x55])).2 = false ∧
    (decode_raw (List.replicate 30 0x30 ++ [0x0D, 0x0A, 0x55])).1.length = 15 :=
  ⟨(decode_raw_spec (List.replicate 30 0x30 ++ [0x0D, 0x0A, 0x55]) (by decide)
      (by decide) (by decide) (by decide)).1,
   (decode_raw_spec (List.replicate 30 0x30 ++ [0x0D, 0x0A, 0x55]) (by decide)
      (by decide) (by decide) (by decide)).2.1⟩

/-- The value a digit field contributes in the spec's formula: a numeric
digit contributes its value, None contributes 0 while keeping its
position. -/
def numOrZero : Option LCDVal → Rat
  | some (LCDVal.num n) => (n : Rat)
  | _ => 0

/-- True when a digit field is None or a numeric digit, the only cases in
which Python's digit arithmetic in decode_lux is defined. -/
def isNumOrNone : Option LCDVal → Bool
  | some (LCDVal.sym _) => false
  | _ => true

/-- The spec's digit sum: digit values weighted by position,
most-significant digit highest. -/
def specBase (s : Summary) : Rat :=
  numOrZero s.big_1000 * 10 ^ 3 + numOrZero s.big_100 * 10 ^ 2
    + numOrZero s.big_10 * 10 ^ 1 + numOrZero s.big_1 * 10 ^ 0

/-- The spec's modifier chain: times 0.1 for the tenths flag, then 0.01
for hundredths, then 0.001 for thousandths, then 10 for the x10 flag. -/
def specModified (s : Summary) : Rat :=
  let m1 := if s.big_10ths then specBase s * (1 / 10) else specBase s
  let m2 := if s.big_100ths then m1 * (1 / 100) else m1
  let m3 := if s.big_1000ths then m2 * (1 / 1000) else m2
  if s.x10 then m3 * 10 else m3

/-- Helper: on digit fields that are numeric or None, the accumulation loop
of decode_lux computes the spec's positionally weighted digit sum. -/
theorem accumLux_eq_specBase (s : Summary)
    (h1000 : isNumOrNone s.big_1000 = true) (h100 : isNumOrNone s.big_100 = true)
    (h10 : isNumOrNone s.big_10 = true) (h1 : isNumOrNone s.big_1 = true) :
    accumLux [s.big_1000, s.big_100, s.big_10, s.big_1].reverse 0 0
      = some (specBase s) := by
  obtain ⟨u, d3, d2, d1, d0, f1, f2, f3, fx⟩ := s
  rcases d3 with _ | (n3 | c3) <;> rcases d2 with _ | (n2 | c2) <;>
    rcases d1 with _ | (n1 | c1) <;> rcases d0 with _ | (n0 | c0) <;>
    simp [isNumOrNone] at h1000 h100 h10 h1 <;>
    simp [accumLux, specBase, numOrZero] <;> ring_nf

/-- C3: on every summary whose big digits are not the blank pattern (and
are digits or None, so that the arithmetic is defined), decode_lux returns
the positionally weighted digit sum with None contributing 0, multiplied by
0.1, 0.01, 0.001 and 10 for the respective flags in that order, truncated
to a Python int exactly when none of the three fractional flags is set. -/
theorem decode_lux_value_spec (s : Summary)
    (hnb : [s.big_1000, s.big_100, s.big_10, s.big_1]
      ≠ [none, some (LCDVal.num 0), some (LCDVal.sym 'L'), none])
    (h1000 : isNumOrNone s.big_1000 = true) (h100 : isNumOrNone s.big_100 = true)
    (h10 : isNumOrNone s.big_10 = true) (h1 : isNumOrNone s.big_1 = true) :
    decode_lux s = some (some (if s.big_10ths || s.big_100ths || s.big_1000ths
      then PyNum.float (specModified s)
      else PyNum.int (pyInt (specModified s))), s.unit) := by
  have hacc := accumLux_eq_specBase s h1000 h100 h10 h1
  simp only [decode_lux, if_neg hnb, hacc, specModified]
  cases hb : (s.big_10ths || s.big_100ths || s.big_1000ths) <;> simp [hb]

/-- Concrete instance of decode_lux_value_spec on the digits 1 2 3 4 with
no flags set. -/
theorem decode_lux_value_spec_witness :
    decode_lux ⟨some "lux", some (LCDVal.num 1), some (LCDVal.num 2),
        some (LCDVal.num 3), some (LCDVal.num 4), false, false, false, false⟩
      = some (some (PyNum.int (pyInt (specModified ⟨some "lux", some (LCDVal.num 1),
          some (LCDVal.num 2), some (LCDVal.num 3), some (LCDVal.num 4),
          false, false, false, false⟩))), some "lux") :=
  decode_lux_value_spec _ (by decide) (by decide) (by decide) (by decide) (by decide)

/-- C6: on every summary whose big digits equal the literal blank pattern
None, 0, 'L', None, decode_lux returns no lux value together with the
summary's unit field, whatever that unit is. -/
theorem decode_lux_blank_spec (s : Summary)
    (h3 : s.big_1000 = none) (h2 : s.big_100 = some (LCDVal.num 0))
    (h1 : s.big_10 = some (LCDVal.sym 'L')) (h0 : s.big_1 = none) :
    decode_lux s = some (none, s.unit) := by
  simp [decode_lux, h3, h2, h1, h0]

/-- Concrete instance of decode_lux_blank_spec. -/
theorem decode_lux_blank_spec_witness :
    decode_lux ⟨some "fc", none, some (LCDVal.num 0), some (LCDVal.sym 'L'),
        none, false, true, false, true⟩ = some (none, some "fc") :=
  decode_lux_blank_spec _ rfl rfl rfl rfl

end Luxmeters
